import Mathlib

/-!
Verification development for the `tor-proxy` repository.

The repository contains a Deno/TypeScript `TorController` class
(`src/app/tor_control.ts`, with a second textual copy in
`src/unnamed/part_000`).  The controller owns an optional control-port
socket (`conn`), two HTTP client handles (`proxiedClient`, `publicClient`),
and configuration fields, and provides `connect`, `disconnect`,
`sendCommand`, `waitForCircuitReady`, `authenticate`, `getCurrentIP`,
`fetchThroughTor`, `getTorClient`, `getPublicClient` and `changeIP`.

We embed the class shallowly: the mutable fields become a `TCState` record,
socket and HTTP-client handles become `Nat` identifiers allocated from a
counter, and every external I/O effect (socket connect, write, read, HTTP
probe, client construction/disposal) is an explicit input drawn from an
environment record, so each method is a pure function of the state and the
environment.  JavaScript exceptions become the `thrown` constructor of an
`Outcome`; the unbounded event-wait loop can also fail to terminate, which
becomes the `diverge` constructor.
-/

/-- A JavaScript `Error` value: a `name` (class) and a `message`.  Template
interpolation of an error (`` `${error}` ``) uses `errStr` below. -/
structure JsError where
  name : String
  message : String
deriving Repr, DecidableEq

/-- JavaScript `Error.prototype.toString()`: `name` when the message is
empty, otherwise `name ++ ": " ++ message`. -/
def errStr (e : JsError) : String :=
  if e.message = "" then e.name else e.name ++ ": " ++ e.message

/-- A plain `new Error(msg)` value. -/
def jsErr (msg : String) : JsError := { name := "Error", message := msg }

/-- `isPrefixList p s`: the char list `p` is a prefix of `s`. -/
def isPrefixList : List Char → List Char → Bool
  | [], _ => true
  | _ :: _, [] => false
  | p :: ps, c :: cs => p == c && isPrefixList ps cs

/-- `hasInfixList p s`: the char list `p` occurs contiguously in `s`. -/
def hasInfixList (pat : List Char) : List Char → Bool
  | [] => isPrefixList pat []
  | c :: cs => isPrefixList pat (c :: cs) || hasInfixList pat cs

/-- JavaScript `s.includes(pat)`: `pat` occurs as a substring of `s`. -/
def strContains (s pat : String) : Bool := hasInfixList pat.data s.data

/-- JavaScript `s.startsWith(pre)`. -/
def strStartsWith (s pre : String) : Bool := isPrefixList pre.data s.data

/-- The whitespace characters stripped by JavaScript trimming (the ASCII
subset, which covers every reply the control protocol produces). -/
def isSpaceChar (c : Char) : Bool :=
  c == ' ' || c == '\t' || c == '\n' || c == '\r' || c == '\x0b' || c == '\x0c'

/-- Strip leading and trailing whitespace from a char list. -/
def trimList (l : List Char) : List Char :=
  ((l.dropWhile isSpaceChar).reverse.dropWhile isSpaceChar).reverse

/-- JavaScript `s.trim()`. -/
def strTrim (s : String) : String := String.mk (trimList s.data)

/-- A JavaScript value that `getCurrentIP` can return: `null` (any fault
was caught and `null` returned), `undefined` (the fetch and JSON parse
succeeded but the object had no `origin` field — `data.origin` is returned
unchecked), or a string address. -/
inductive IPVal
  | null
  | undef
  | str (s : String)
deriving Repr, DecidableEq

/-- JavaScript strict equality (`===`) on the values `getCurrentIP`
produces: `null === null` and `undefined === undefined` hold, strings
compare by value, and `null === undefined` is false (no coercion under
`===`). -/
def jsStrictEq : IPVal → IPVal → Bool
  | .null, .null => true
  | .undef, .undef => true
  | .str a, .str b => a == b
  | _, _ => false

/-- Outcome of one HTTP probe exchange, supplied by the environment:
`fault` — the fetch or the JSON decode threw; `noOrigin` — the JSON parsed
but carried no `origin` field; `origin s` — the reported address. -/
inductive ProbeRes
  | fault
  | noOrigin
  | origin (s : String)
deriving Repr, DecidableEq

/-- The value a completed probe exchange yields inside `getCurrentIP`:
a thrown fault is caught and becomes `null`; a JSON body without `origin`
makes `data.origin` evaluate to `undefined`, which is returned as-is. -/
def probeVal : ProbeRes → IPVal
  | .fault => .null
  | .noOrigin => .undef
  | .origin s => .str s

/-- The `CONNECTION` enum of `tor_control.ts`. -/
inductive CONNECTION
  | TOR
  | NORMAL
deriving Repr, DecidableEq

/-- The `ResponseType` union of `tor_control.ts`. -/
inductive ResponseType
  | json
  | text
  | arrayBuffer
  | blob
deriving Repr, DecidableEq

/-- The mutable fields of a `TorController` instance.  Socket and
HTTP-client handles are modelled as `Nat` identifiers drawn from
`nextHandle`; `closedClients` and `closedConns` record which handles have
been closed (for stating disposal properties). -/
structure TCState where
  conn : Option Nat
  host : String
  controlPort : Nat
  socksPort : Nat
  password : String
  proxiedClient : Option Nat
  publicClient : Option Nat
  nextHandle : Nat
  closedClients : List Nat
  closedConns : List Nat
deriving Repr, DecidableEq

/-- Result of one JS-level method call: normal return, thrown exception,
or non-termination (only the event-wait loop can diverge). -/
inductive Outcome (α : Type)
  | ok (a : α)
  | thrown (e : JsError)
  | diverge
deriving Repr, DecidableEq

/-- Outcome of one `conn.read(buffer)` call: `chunk s` is a read of
`s.length` bytes decoding to `s` (a 0-byte read is `chunk ""`), `eof` is a
`null` return, `fault e` is a thrown exception. -/
inductive ChunkRead
  | chunk (s : String)
  | eof
  | fault (e : JsError)
deriving Repr, DecidableEq

/-- Environment for one `sendCommand` call: whether the socket write
throws, and what the single reply read yields. -/
structure CmdWire where
  writeFault : Option JsError
  readRes : ChunkRead
deriving Repr, DecidableEq

/-- An I/O action attempted on the control socket. -/
inductive WireAction
  | write (data : String)
  | read
deriving Repr, DecidableEq

/-- Environment for one `waitForCircuitReady` call: the `SETEVENTS CIRC`
exchange, the stream of inbound event reads, and the closing `SETEVENTS`
exchange.  An exhausted `events` list models a daemon that never delivers
a qualifying event (the loop then never returns). -/
structure WaitWire where
  subWire : CmdWire
  events : List ChunkRead
  unsubWire : CmdWire
deriving Repr, DecidableEq

/-- The object returned by `changeIP`.  `oldIP` and `newIP` are the
JavaScript values the two probes produced (`null`, `undefined`, or a
string). -/
structure RotationResult where
  success : Bool
  oldIP : IPVal
  newIP : IPVal
  message : String
deriving Repr, DecidableEq

/-- High-level steps of a `changeIP` run, recorded in order, used to state
which stages of the sequence were entered. -/
inductive RotStep
  | probeOld
  | connectStep
  | authStep
  | newnymStep
  | waitStep
  | closeClientStep
  | createClientStep
  | probeNewStep
deriving Repr, DecidableEq

/-- How a `changeIP` call ends: a returned `RotationResult`, or never
(stuck in the event-wait loop).  `changeIP` never throws. -/
inductive RotOutcome
  | ret (r : RotationResult)
  | divergent
deriving Repr, DecidableEq

/-- Environment for one `changeIP` call: the outcome of each external
effect along the fixed sequence.  `oldProbe` / `newProbe` are the outcome
of the two HTTP probe exchanges (`getCurrentIP` swallows probe faults,
turning them into `null`); `connectFault` is the `Deno.connect` outcome;
`closeClientFault` is whether `proxiedClient.close()` throws;
`createClientFault` is the `Deno.createHttpClient` outcome. -/
structure RotationEnv where
  oldProbe : ProbeRes
  connectFault : Option JsError
  authWire : CmdWire
  newnymWire : CmdWire
  waitWire : WaitWire
  closeClientFault : Option JsError
  createClientFault : Option JsError
  newProbe : ProbeRes
deriving Repr, DecidableEq

/-- An HTTP response as seen by `fetchThroughTor`: the `ok` flag, status
data, and the result of decoding the body with each selectable decoder. -/
structure HttpResponse where
  ok : Bool
  status : Nat
  statusText : String
  decodeRes : ResponseType → Except JsError String

namespace App

/-- Constructor of `TorController` (src/app/tor_control.ts:46-64): stores
the configuration (`password ?? ""`), then constructs the proxied client
(handle 0) and the public client (handle 1); a construction fault is
rethrown and no instance is produced.  The proxy URL is
`HTTPS_PROXY ?? socks5://host:socksPort` — configuration only, not part of
the handle model. -/
def mkTorController (host : String) (socksPort controlPort : Nat)
    (password : Option String)
    (createProxiedFault createPublicFault : Option JsError) : Outcome TCState :=
  match createProxiedFault with
  | some e => .thrown e
  | none =>
    match createPublicFault with
    | some e => .thrown e
    | none =>
      .ok { conn := none, host := host, controlPort := controlPort,
            socksPort := socksPort, password := password.getD "",
            proxiedClient := some 0, publicClient := some 1,
            nextHandle := 2, closedClients := [], closedConns := [] }

/-- The `connectionConfig` getter (src/app/tor_control.ts:66-71). -/
def connectionConfig (st : TCState) : CONNECTION → Option Nat
  | .TOR => st.proxiedClient
  | .NORMAL => st.publicClient

/-- `connect` (src/app/tor_control.ts:73-84): no-op if a connection is
present; otherwise `Deno.connect`, storing the new socket on success and
rethrowing a wrapped error on failure (the field stays `null`). -/
def connect (st : TCState) (connectFault : Option JsError) :
    Outcome Unit × TCState :=
  match st.conn with
  | some _ => (.ok (), st)
  | none =>
    match connectFault with
    | none => (.ok (), { st with conn := some st.nextHandle,
                                 nextHandle := st.nextHandle + 1 })
    | some e =>
      (.thrown (jsErr ("Failed to connect to Tor control port: " ++ errStr e)), st)

/-- `disconnect` (src/app/tor_control.ts:89-94): close and clear the
connection if present. -/
def disconnect (st : TCState) : TCState :=
  match st.conn with
  | some h => { st with conn := none, closedConns := h :: st.closedConns }
  | none => st

/-- `sendCommand` (src/app/tor_control.ts:96-114): throws `Not connected`
before any I/O when no connection is present; otherwise writes
`command + "\r\n"`, reads one chunk, throws `No response` on a null (or
empty) read, else returns the decoded chunk.  Also returns the list of
socket actions attempted. -/
def sendCommand (st : TCState) (command : String) (wire : CmdWire) :
    Outcome String × List WireAction :=
  match st.conn with
  | none => (.thrown (jsErr "Not connected to Tor control port"), [])
  | some _ =>
    match wire.writeFault with
    | some e => (.thrown e, [.write (command ++ "\r\n")])
    | none =>
      match wire.readRes with
      | .fault e => (.thrown e, [.write (command ++ "\r\n"), .read])
      | .eof =>
        (.thrown (jsErr "No response from Tor control port"),
         [.write (command ++ "\r\n"), .read])
      | .chunk s =>
        if s = "" then
          (.thrown (jsErr "No response from Tor control port"),
           [.write (command ++ "\r\n"), .read])
        else (.ok s, [.write (command ++ "\r\n"), .read])

/-- The read loop of `waitForCircuitReady` (src/app/tor_control.ts:122-135):
a null or 0-byte read continues the loop, a read fault propagates, and a
chunk containing both `"650 CIRC"` and `"BUILT"` exits the loop; if the
stream never delivers such a chunk the loop never returns. -/
def waitLoop : List ChunkRead → Outcome Unit
  | [] => .diverge
  | .fault e :: _ => .thrown e
  | .eof :: rest => waitLoop rest
  | .chunk s :: rest =>
    if s = "" then waitLoop rest
    else if strContains s "650 CIRC" && strContains s "BUILT" then .ok ()
    else waitLoop rest

/-- `waitForCircuitReady` (src/app/tor_control.ts:116-138): send
`SETEVENTS CIRC` (reply logged, not status-checked), run the read loop,
then send `SETEVENTS` (reply ignored).  State is unchanged. -/
def waitForCircuitReady (st : TCState) (w : WaitWire) : Outcome Unit :=
  match (sendCommand st "SETEVENTS CIRC" w.subWire).1 with
  | .thrown e => .thrown e
  | .diverge => .diverge
  | .ok _ =>
    match waitLoop w.events with
    | .thrown e => .thrown e
    | .diverge => .diverge
    | .ok _ =>
      match (sendCommand st "SETEVENTS" w.unsubWire).1 with
      | .thrown e => .thrown e
      | .diverge => .diverge
      | .ok _ => .ok ()

/-- `authenticate` (src/app/tor_control.ts:140-146): send
`AUTHENTICATE "<password>"`; throw `Authentication failed: <trimmed reply>`
unless the reply starts with `250`. -/
def authenticate (st : TCState) (wire : CmdWire) :
    Outcome Unit × List WireAction :=
  match sendCommand st ("AUTHENTICATE \"" ++ st.password ++ "\"") wire with
  | (.thrown e, acts) => (.thrown e, acts)
  | (.diverge, acts) => (.diverge, acts)
  | (.ok response, acts) =>
    if !(strStartsWith response "250") then
      (.thrown (jsErr ("Authentication failed: " ++ strTrim response)), acts)
    else (.ok (), acts)

/-- `getCurrentIP` (src/app/tor_control.ts:161-175): pick the client for
the mode; a missing client throws, and every thrown fault (missing client,
fetch or JSON failure) is caught and yields `null`; otherwise `data.origin`
is returned unchecked — `undefined` when the JSON had no `origin` field
(there is no `req.ok` test and no presence test on the field). -/
def getCurrentIP (st : TCState) (mode : CONNECTION) (probe : ProbeRes) : IPVal :=
  match connectionConfig st mode with
  | none => .null
  | some _ => probeVal probe

/-- `fetchThroughTor` (src/app/tor_control.ts:202-237): requires the
proxied client, performs the fetch, throws on a non-ok response, decodes
the body per `responseType` (the `default` arm of the switch is
unreachable for the four-member enum); every fault is caught and yields
`null`. -/
def fetchThroughTor (st : TCState) (responseType : ResponseType)
    (fetchRes : Except JsError HttpResponse) : Option String :=
  match st.proxiedClient with
  | none => none
  | some _ =>
    match fetchRes with
    | .error _ => none
    | .ok resp =>
      if !resp.ok then none
      else
        match resp.decodeRes responseType with
        | .error _ => none
        | .ok body => some body

/-- `getTorClient` (src/app/tor_control.ts:252-254). -/
def getTorClient (st : TCState) : Option Nat := st.proxiedClient

/-- `getPublicClient` (src/app/tor_control.ts:269-271). -/
def getPublicClient (st : TCState) : Option Nat := st.publicClient

/-- The final classification block of `changeIP`
(src/app/tor_control.ts:329-340): `success = newIP !== null && newIP !==
oldIP` under JavaScript strict equality — an `undefined` probe result is
not `=== null`, so it can satisfy the first conjunct; the message is the
success variant, else the same-IP variant when `newIP === oldIP` (which
also holds when both are `null` or both `undefined`), else the
failed-probe variant. -/
def classify (oldIP newIP : IPVal) : RotationResult :=
  let success := !jsStrictEq newIP .null && !jsStrictEq newIP oldIP
  { success := success, oldIP := oldIP, newIP := newIP,
    message :=
      if success then "IP changed successfully"
      else if jsStrictEq newIP oldIP then "IP change requested but same IP returned"
      else "Failed to get new IP" }

/-- The `try` block of `changeIP` (src/app/tor_control.ts:293-340): probe
the old address (fault-swallowing), connect, authenticate, send
`SIGNAL NEWNYM` (early `success:false` return on a non-250 reply), wait
for a built circuit, close the old proxied client (`?.close()` —
unguarded), install a fresh client, probe the new address and classify.
Returns the outcome, the state reached, and the steps entered. -/
def changeIPBody (st : TCState) (env : RotationEnv) :
    Outcome RotationResult × TCState × List RotStep :=
  let oldIP := getCurrentIP st .TOR env.oldProbe
  match connect st env.connectFault with
  | (.thrown e, st1) => (.thrown e, st1, [.probeOld, .connectStep])
  | (.diverge, st1) => (.diverge, st1, [.probeOld, .connectStep])
  | (.ok _, st1) =>
    match (authenticate st1 env.authWire).1 with
    | .thrown e => (.thrown e, st1, [.probeOld, .connectStep, .authStep])
    | .diverge => (.diverge, st1, [.probeOld, .connectStep, .authStep])
    | .ok _ =>
      match (sendCommand st1 "SIGNAL NEWNYM" env.newnymWire).1 with
      | .thrown e =>
        (.thrown e, st1, [.probeOld, .connectStep, .authStep, .newnymStep])
      | .diverge =>
        (.diverge, st1, [.probeOld, .connectStep, .authStep, .newnymStep])
      | .ok response =>
        if !(strStartsWith response "250") then
          (.ok { success := false, oldIP := oldIP, newIP := .null,
                 message := "Failed to request new circuit: " ++ strTrim response },
           st1, [.probeOld, .connectStep, .authStep, .newnymStep])
        else
          match waitForCircuitReady st1 env.waitWire with
          | .thrown e =>
            (.thrown e, st1,
             [.probeOld, .connectStep, .authStep, .newnymStep, .waitStep])
          | .diverge =>
            (.diverge, st1,
             [.probeOld, .connectStep, .authStep, .newnymStep, .waitStep])
          | .ok _ =>
            match
              (match st1.proxiedClient with
               | some h =>
                 match env.closeClientFault with
                 | some e => (Outcome.thrown e, st1)
                 | none =>
                   (Outcome.ok (),
                    { st1 with closedClients := h :: st1.closedClients })
               | none => (Outcome.ok (), st1)) with
            | (.thrown e, st2) =>
              (.thrown e, st2,
               [.probeOld, .connectStep, .authStep, .newnymStep, .waitStep,
                .closeClientStep])
            | (.diverge, st2) =>
              (.diverge, st2,
               [.probeOld, .connectStep, .authStep, .newnymStep, .waitStep,
                .closeClientStep])
            | (.ok _, st2) =>
              match env.createClientFault with
              | some e =>
                (.thrown e, st2,
                 [.probeOld, .connectStep, .authStep, .newnymStep, .waitStep,
                  .closeClientStep, .createClientStep])
              | none =>
                let st3 := { st2 with proxiedClient := some st2.nextHandle,
                                      nextHandle := st2.nextHandle + 1 }
                let newIP := getCurrentIP st3 .TOR env.newProbe
                (.ok (classify oldIP newIP), st3,
                 [.probeOld, .connectStep, .authStep, .newnymStep, .waitStep,
                  .closeClientStep, .createClientStep, .probeNewStep])

/-- `changeIP` (src/app/tor_control.ts:292-356): run the `try` body; the
`catch` converts any thrown fault into a `success:false` result with
message `Error changing IP: <error>`; the `finally` closes and clears the
control connection (its code is that of `disconnect`) on every returning
path. -/
def changeIP (st : TCState) (env : RotationEnv) :
    RotOutcome × TCState × List RotStep :=
  match changeIPBody st env with
  | (.ok r, st', tr) => (.ret r, disconnect st', tr)
  | (.thrown e, st', tr) =>
    (.ret { success := false, oldIP := .null, newIP := .null,
            message := "Error changing IP: " ++ errStr e },
     disconnect st', tr)
  | (.diverge, st', tr) => (.divergent, st', tr)

end App

namespace Dup

/-- Constructor of the duplicate `TorController` (src/unnamed/part_000:17-35),
textually identical to the one in src/app/tor_control.ts. -/
def mkTorController (host : String) (socksPort controlPort : Nat)
    (password : Option String)
    (createProxiedFault createPublicFault : Option JsError) : Outcome TCState :=
  match createProxiedFault with
  | some e => .thrown e
  | none =>
    match createPublicFault with
    | some e => .thrown e
    | none =>
      .ok { conn := none, host := host, controlPort := controlPort,
            socksPort := socksPort, password := password.getD "",
            proxiedClient := some 0, publicClient := some 1,
            nextHandle := 2, closedClients := [], closedConns := [] }

/-- The `connectionConfig` getter (src/unnamed/part_000:37-42). -/
def connectionConfig (st : TCState) : CONNECTION → Option Nat
  | .TOR => st.proxiedClient
  | .NORMAL => st.publicClient

/-- `connect` (src/unnamed/part_000:44-55). -/
def connect (st : TCState) (connectFault : Option JsError) :
    Outcome Unit × TCState :=
  match st.conn with
  | some _ => (.ok (), st)
  | none =>
    match connectFault with
    | none => (.ok (), { st with conn := some st.nextHandle,
                                 nextHandle := st.nextHandle + 1 })
    | some e =>
      (.thrown (jsErr ("Failed to connect to Tor control port: " ++ errStr e)), st)

/-- `disconnect` (src/unnamed/part_000:57-62).  The only textual difference
from the copy in src/app/tor_control.ts: it is declared `async` (returning
a promise of `undefined` rather than `undefined`); once awaited it has the
same value and the same state effect. -/
def disconnect (st : TCState) : TCState :=
  match st.conn with
  | some h => { st with conn := none, closedConns := h :: st.closedConns }
  | none => st

/-- `sendCommand` (src/unnamed/part_000:64-82). -/
def sendCommand (st : TCState) (command : String) (wire : CmdWire) :
    Outcome String × List WireAction :=
  match st.conn with
  | none => (.thrown (jsErr "Not connected to Tor control port"), [])
  | some _ =>
    match wire.writeFault with
    | some e => (.thrown e, [.write (command ++ "\r\n")])
    | none =>
      match wire.readRes with
      | .fault e => (.thrown e, [.write (command ++ "\r\n"), .read])
      | .eof =>
        (.thrown (jsErr "No response from Tor control port"),
         [.write (command ++ "\r\n"), .read])
      | .chunk s =>
        if s = "" then
          (.thrown (jsErr "No response from Tor control port"),
           [.write (command ++ "\r\n"), .read])
        else (.ok s, [.write (command ++ "\r\n"), .read])

/-- The read loop of `waitForCircuitReady` (src/unnamed/part_000:90-103). -/
def waitLoop : List ChunkRead → Outcome Unit
  | [] => .diverge
  | .fault e :: _ => .thrown e
  | .eof :: rest => waitLoop rest
  | .chunk s :: rest =>
    if s = "" then waitLoop rest
    else if strContains s "650 CIRC" && strContains s "BUILT" then .ok ()
    else waitLoop rest

/-- `waitForCircuitReady` (src/unnamed/part_000:84-106). -/
def waitForCircuitReady (st : TCState) (w : WaitWire) : Outcome Unit :=
  match (sendCommand st "SETEVENTS CIRC" w.subWire).1 with
  | .thrown e => .thrown e
  | .diverge => .diverge
  | .ok _ =>
    match waitLoop w.events with
    | .thrown e => .thrown e
    | .diverge => .diverge
    | .ok _ =>
      match (sendCommand st "SETEVENTS" w.unsubWire).1 with
      | .thrown e => .thrown e
      | .diverge => .diverge
      | .ok _ => .ok ()

/-- `authenticate` (src/unnamed/part_000:108-114). -/
def authenticate (st : TCState) (wire : CmdWire) :
    Outcome Unit × List WireAction :=
  match sendCommand st ("AUTHENTICATE \"" ++ st.password ++ "\"") wire with
  | (.thrown e, acts) => (.thrown e, acts)
  | (.diverge, acts) => (.diverge, acts)
  | (.ok response, acts) =>
    if !(strStartsWith response "250") then
      (.thrown (jsErr ("Authentication failed: " ++ strTrim response)), acts)
    else (.ok (), acts)

/-- `getCurrentIP` (src/unnamed/part_000:116-130), identical to the copy
in src/app/tor_control.ts: caught faults yield `null`, and `data.origin`
is returned unchecked (`undefined` when the JSON had no `origin`). -/
def getCurrentIP (st : TCState) (mode : CONNECTION) (probe : ProbeRes) : IPVal :=
  match connectionConfig st mode with
  | none => .null
  | some _ => probeVal probe

/-- `fetchThroughTor` (src/unnamed/part_000:132-167). -/
def fetchThroughTor (st : TCState) (responseType : ResponseType)
    (fetchRes : Except JsError HttpResponse) : Option String :=
  match st.proxiedClient with
  | none => none
  | some _ =>
    match fetchRes with
    | .error _ => none
    | .ok resp =>
      if !resp.ok then none
      else
        match resp.decodeRes responseType with
        | .error _ => none
        | .ok body => some body

/-- `getTorClient` (src/unnamed/part_000:169-171). -/
def getTorClient (st : TCState) : Option Nat := st.proxiedClient

/-- `getPublicClient` (src/unnamed/part_000:173-175). -/
def getPublicClient (st : TCState) : Option Nat := st.publicClient

/-- The final classification block of `changeIP`
(src/unnamed/part_000:214-225). -/
def classify (oldIP newIP : IPVal) : RotationResult :=
  let success := !jsStrictEq newIP .null && !jsStrictEq newIP oldIP
  { success := success, oldIP := oldIP, newIP := newIP,
    message :=
      if success then "IP changed successfully"
      else if jsStrictEq newIP oldIP then "IP change requested but same IP returned"
      else "Failed to get new IP" }

/-- The `try` block of `changeIP` (src/unnamed/part_000:178-225). -/
def changeIPBody (st : TCState) (env : RotationEnv) :
    Outcome RotationResult × TCState × List RotStep :=
  let oldIP := getCurrentIP st .TOR env.oldProbe
  match connect st env.connectFault with
  | (.thrown e, st1) => (.thrown e, st1, [.probeOld, .connectStep])
  | (.diverge, st1) => (.diverge, st1, [.probeOld, .connectStep])
  | (.ok _, st1) =>
    match (authenticate st1 env.authWire).1 with
    | .thrown e => (.thrown e, st1, [.probeOld, .connectStep, .authStep])
    | .diverge => (.diverge, st1, [.probeOld, .connectStep, .authStep])
    | .ok _ =>
      match (sendCommand st1 "SIGNAL NEWNYM" env.newnymWire).1 with
      | .thrown e =>
        (.thrown e, st1, [.probeOld, .connectStep, .authStep, .newnymStep])
      | .diverge =>
        (.diverge, st1, [.probeOld, .connectStep, .authStep, .newnymStep])
      | .ok response =>
        if !(strStartsWith response "250") then
          (.ok { success := false, oldIP := oldIP, newIP := .null,
                 message := "Failed to request new circuit: " ++ strTrim response },
           st1, [.probeOld, .connectStep, .authStep, .newnymStep])
        else
          match waitForCircuitReady st1 env.waitWire with
          | .thrown e =>
            (.thrown e, st1,
             [.probeOld, .connectStep, .authStep, .newnymStep, .waitStep])
          | .diverge =>
            (.diverge, st1,
             [.probeOld, .connectStep, .authStep, .newnymStep, .waitStep])
          | .ok _ =>
            match
              (match st1.proxiedClient with
               | some h =>
                 match env.closeClientFault with
                 | some e => (Outcome.thrown e, st1)
                 | none =>
                   (Outcome.ok (),
                    { st1 with closedClients := h :: st1.closedClients })
               | none => (Outcome.ok (), st1)) with
            | (.thrown e, st2) =>
              (.thrown e, st2,
               [.probeOld, .connectStep, .authStep, .newnymStep, .waitStep,
                .closeClientStep])
            | (.diverge, st2) =>
              (.diverge, st2,
               [.probeOld, .connectStep, .authStep, .newnymStep, .waitStep,
                .closeClientStep])
            | (.ok _, st2) =>
              match env.createClientFault with
              | some e =>
                (.thrown e, st2,
                 [.probeOld, .connectStep, .authStep, .newnymStep, .waitStep,
                  .closeClientStep, .createClientStep])
              | none =>
                let st3 := { st2 with proxiedClient := some st2.nextHandle,
                                      nextHandle := st2.nextHandle + 1 }
                let newIP := getCurrentIP st3 .TOR env.newProbe
                (.ok (classify oldIP newIP), st3,
                 [.probeOld, .connectStep, .authStep, .newnymStep, .waitStep,
                  .closeClientStep, .createClientStep, .probeNewStep])

/-- `changeIP` (src/unnamed/part_000:177-241). -/
def changeIP (st : TCState) (env : RotationEnv) :
    RotOutcome × TCState × List RotStep :=
  match changeIPBody st env with
  | (.ok r, st', tr) => (.ret r, disconnect st', tr)
  | (.thrown e, st', tr) =>
    (.ret { success := false, oldIP := .null, newIP := .null,
            message := "Error changing IP: " ++ errStr e },
     disconnect st', tr)
  | (.diverge, st', tr) => (.divergent, st', tr)

end Dup

/-! ### Concrete fixtures used by witnesses and counterexamples -/

/-- The state of a freshly constructed controller with default
configuration (the `ok` result of `mkTorController`). -/
def stBase : TCState :=
  { conn := none, host := "127.0.0.1", controlPort := 9051, socksPort := 9050,
    password := "", proxiedClient := some 0, publicClient := some 1,
    nextHandle := 2, closedClients := [], closedConns := [] }

/-- A command exchange whose write succeeds and whose reply read returns
the chunk `s`. -/
def okWire (s : String) : CmdWire := { writeFault := none, readRes := .chunk s }

/-- A rotation environment in which every step succeeds and the two probes
report different addresses. -/
def envOk : RotationEnv :=
  { oldProbe := .origin "1.2.3.4", connectFault := none,
    authWire := okWire "250 OK\r\n", newnymWire := okWire "250 OK\r\n",
    waitWire := { subWire := okWire "250 OK\r\n",
                  events := [.chunk "650 CIRC 7 BUILT $ABCD\r\n"],
                  unsubWire := okWire "250 OK\r\n" },
    closeClientFault := none, createClientFault := none,
    newProbe := .origin "5.6.7.8" }

/-- The state `changeIP stBase envOk` ends in: control socket (handle 2)
closed and cleared, old proxied client (handle 0) disposed, fresh proxied
client (handle 3) installed. -/
def stAfterOk : TCState :=
  { conn := none, host := "127.0.0.1", controlPort := 9051, socksPort := 9050,
    password := "", proxiedClient := some 3, publicClient := some 1,
    nextHandle := 4, closedClients := [0], closedConns := [2] }

/-- Like `envOk` but both HTTP probes throw (both addresses are `null`). -/
def envBothNull : RotationEnv :=
  { envOk with oldProbe := .fault, newProbe := .fault }

/-- Like `envOk` but the new probe's JSON body carries no `origin` field,
so the new address is `undefined`. -/
def envNoOrigin : RotationEnv := { envOk with newProbe := .noOrigin }

/-- Like `envOk` but disposing the old proxied client throws. -/
def envCloseBoom : RotationEnv :=
  { envOk with closeClientFault := some (jsErr "boom") }

/-- Like `envOk` but the control-port connection cannot be established. -/
def envConnRefused : RotationEnv :=
  { envOk with connectFault := some (jsErr "refused") }

/-- Like `envOk` but the daemon rejects `AUTHENTICATE`. -/
def envAuthBad : RotationEnv :=
  { envOk with authWire := okWire "515 Bad authentication\r\n" }

/-- Like `envOk` but the daemon rejects `SIGNAL NEWNYM`. -/
def envNewnymBad : RotationEnv :=
  { envOk with newnymWire := okWire "552 Unrecognized command\r\n" }

/-- A controller state with an already-open control connection. -/
def stConn5 : TCState := { stBase with conn := some 5 }

/-- The full step trace of a rotation that runs to classification. -/
def fullTrace : List RotStep :=
  [.probeOld, .connectStep, .authStep, .newnymStep, .waitStep,
   .closeClientStep, .createClientStep, .probeNewStep]

/-! ### Helper lemmas about the substring check and error rendering -/

theorem isPrefixList_self_append (p t : List Char) :
    isPrefixList p (p ++ t) = true := by
  induction p with
  | nil => rfl
  | cons c cs ih => simp [isPrefixList, ih]

theorem isPrefixList_append_right (p s t : List Char)
    (h : isPrefixList p s = true) : isPrefixList p (s ++ t) = true := by
  induction p generalizing s with
  | nil => rfl
  | cons c cs ih =>
    cases s with
    | nil => simp [isPrefixList] at h
    | cons d ds =>
      simp only [isPrefixList, Bool.and_eq_true] at h ⊢
      exact ⟨h.1, ih ds h.2⟩

theorem hasInfixList_of_prefix (p s : List Char)
    (h : isPrefixList p s = true) : hasInfixList p s = true := by
  cases s with
  | nil => exact h
  | cons c cs => simp [hasInfixList, h]

theorem hasInfixList_append_mid (x p y : List Char) :
    hasInfixList p (x ++ (p ++ y)) = true := by
  induction x with
  | nil => exact hasInfixList_of_prefix _ _ (isPrefixList_self_append p y)
  | cons c cs ih => simp [hasInfixList, ih]

theorem hasInfixList_grow_right (p s t : List Char)
    (h : hasInfixList p s = true) : hasInfixList p (s ++ t) = true := by
  induction s with
  | nil =>
    have hp : p = [] := by
      cases p with
      | nil => rfl
      | cons c cs => simp [hasInfixList, isPrefixList] at h
    subst hp
    cases t with
    | nil => rfl
    | cons d ds => simp [hasInfixList, isPrefixList]
  | cons c cs ih =>
    simp only [hasInfixList, Bool.or_eq_true] at h
    rcases h with h | h
    · simpa [hasInfixList] using Or.inl (isPrefixList_append_right _ _ t h)
    · simpa [hasInfixList] using Or.inr (ih h)

theorem strContains_suffix (x p : String) : strContains (x ++ p) p = true := by
  unfold strContains
  rw [String.data_append]
  have := hasInfixList_append_mid x.data p.data []
  simpa using this

theorem strContains_grow_right (s t p : String)
    (h : strContains s p = true) : strContains (s ++ t) p = true := by
  unfold strContains at h ⊢
  rw [String.data_append]
  exact hasInfixList_grow_right _ _ _ h

theorem string_append_ne_empty_left (x y : String) (hx : x ≠ "") :
    x ++ y ≠ "" := by
  intro h
  apply hx
  have hd : (x ++ y).data = [] := by rw [h]
  rw [String.data_append, List.append_eq_nil] at hd
  apply String.ext
  rw [hd.1]

theorem errStr_jsErr (m : String) (hm : m ≠ "") :
    errStr (jsErr m) = "Error: " ++ m := by
  simp only [errStr, jsErr, if_neg hm]
  rw [show ("Error" ++ ": " : String) = "Error: " from rfl]

theorem disconnect_conn_none (st : TCState) : (App.disconnect st).conn = none := by
  cases h : st.conn <;> simp [App.disconnect, h]

/-! ### Claim theorems -/

/-- Claim C1: for every invocation of `changeIP`, on every return path
(success, any early-return abort, or an exception converted in the catch
branch), the control-connection field is `none` after the method returns:
the finally branch closes and clears any open connection before the result
is delivered, so no open control-port handle remains. -/
theorem changeIP_control_conn_closed (st : TCState) (env : RotationEnv)
    (r : RotationResult) (st' : TCState) (tr : List RotStep)
    (h : App.changeIP st env = (.ret r, st', tr)) : st'.conn = none := by
  unfold App.changeIP at h
  rcases hb : App.changeIPBody st env with ⟨o, stb, trb⟩
  rw [hb] at h
  cases o with
  | ok rr =>
    simp only [Prod.mk.injEq] at h
    rw [← h.2.1]
    exact disconnect_conn_none stb
  | thrown e =>
    simp only [Prod.mk.injEq] at h
    rw [← h.2.1]
    exact disconnect_conn_none stb
  | diverge => simp at h

theorem changeIP_control_conn_closed_witness : stAfterOk.conn = none :=
  changeIP_control_conn_closed stBase envOk
    { success := true, oldIP := .str "1.2.3.4", newIP := .str "5.6.7.8",
      message := "IP changed successfully" }
    stAfterOk fullTrace (by decide)

/-- Claim C3: every fault thrown by a step of the rotation after step 1
(connect, authenticate, `sendCommand`, the circuit wait, the transport
replacement) is caught by `changeIP` rather than propagated: it is
converted into a returned `RotationResult` with `success = false` and the
descriptive message `Error changing IP: <fault>`. -/
theorem changeIP_converts_faults (st : TCState) (env : RotationEnv)
    (e : JsError) (st' : TCState) (tr : List RotStep)
    (h : App.changeIPBody st env = (.thrown e, st', tr)) :
    App.changeIP st env =
      (.ret { success := false, oldIP := .null, newIP := .null,
              message := "Error changing IP: " ++ errStr e },
       App.disconnect st', tr) := by
  unfold App.changeIP
  rw [h]

theorem changeIP_converts_faults_witness :
    App.changeIP stBase envConnRefused =
      (.ret { success := false, oldIP := .null, newIP := .null,
              message := "Error changing IP: " ++
                errStr (jsErr "Failed to connect to Tor control port: Error: refused") },
       App.disconnect stBase, [.probeOld, .connectStep]) :=
  changeIP_converts_faults stBase envConnRefused
    (jsErr "Failed to connect to Tor control port: Error: refused")
    stBase [.probeOld, .connectStep] (by decide)

/-- Claim C8: every call to `sendCommand` while no connection is present
(`connect` has not succeeded, or `disconnect` cleared it) fails with the
`Not connected` error before performing any I/O: no write and no read is
attempted on any socket. -/
theorem sendCommand_not_connected (st : TCState) (command : String)
    (wire : CmdWire) (h : st.conn = none) :
    App.sendCommand st command wire =
      (.thrown (jsErr "Not connected to Tor control port"), []) := by
  simp [App.sendCommand, h]

theorem sendCommand_not_connected_witness :
    App.sendCommand stBase "SIGNAL NEWNYM" (okWire "250 OK\r\n") =
      (.thrown (jsErr "Not connected to Tor control port"), []) :=
  sendCommand_not_connected stBase "SIGNAL NEWNYM" (okWire "250 OK\r\n") rfl

theorem waitLoop_copies_eq : App.waitLoop = Dup.waitLoop := by
  funext l
  induction l with
  | nil => rfl
  | cons c rest ih =>
    cases c with
    | chunk s => simp only [App.waitLoop, Dup.waitLoop, ih]
    | eof => simp only [App.waitLoop, Dup.waitLoop, ih]
    | fault e => rfl

theorem waitForCircuitReady_copies_eq :
    App.waitForCircuitReady = Dup.waitForCircuitReady := by
  funext st w
  unfold App.waitForCircuitReady Dup.waitForCircuitReady
  rw [waitLoop_copies_eq]
  rfl

theorem changeIP_copies_eq : App.changeIP = Dup.changeIP := by
  funext st env
  unfold App.changeIP Dup.changeIP App.changeIPBody Dup.changeIPBody
  rw [waitForCircuitReady_copies_eq]
  rfl

/-- Claim C9: the two copies of the controller (`src/app/tor_control.ts`
and `src/unnamed/part_000`) implement the same behavior: each operation's
embedding is the same function of state and environment, so on every input
they produce the same result and the same state changes.  (The sole
textual difference, `disconnect` being declared `async` in the duplicate,
does not change its value after awaiting or its state effect.) -/
theorem duplicate_copies_equal :
    App.mkTorController = Dup.mkTorController ∧
    App.connect = Dup.connect ∧
    App.disconnect = Dup.disconnect ∧
    App.sendCommand = Dup.sendCommand ∧
    App.waitForCircuitReady = Dup.waitForCircuitReady ∧
    App.authenticate = Dup.authenticate ∧
    App.getCurrentIP = Dup.getCurrentIP ∧
    App.fetchThroughTor = Dup.fetchThroughTor ∧
    App.getTorClient = Dup.getTorClient ∧
    App.getPublicClient = Dup.getPublicClient ∧
    App.changeIP = Dup.changeIP :=
  ⟨rfl, rfl, rfl, rfl, waitForCircuitReady_copies_eq, rfl, rfl, rfl, rfl, rfl,
   changeIP_copies_eq⟩

/-- Claim C10: if `connect` fails, the session state is unchanged — the
connection field remains `none`, so a subsequent `sendCommand` fails with
`Not connected` rather than observing a partially established connection;
and `connect` called while a connection is present returns immediately
without modifying anything. -/
theorem connect_failure_leaves_disconnected (st : TCState) (e : JsError)
    (command : String) (wire : CmdWire) (c : Nat) (f : Option JsError) :
    (st.conn = none →
       App.connect st (some e) =
         (.thrown (jsErr ("Failed to connect to Tor control port: " ++ errStr e)),
          st) ∧
       App.sendCommand st command wire =
         (.thrown (jsErr "Not connected to Tor control port"), [])) ∧
    (st.conn = some c → App.connect st f = (.ok (), st)) := by
  constructor
  · intro h
    exact ⟨by simp [App.connect, h], by simp [App.sendCommand, h]⟩
  · intro h
    simp [App.connect, h]

theorem connect_failure_leaves_disconnected_witness :
    (App.connect stBase (some (jsErr "refused")) =
       (.thrown (jsErr ("Failed to connect to Tor control port: " ++
          errStr (jsErr "refused"))), stBase) ∧
     App.sendCommand stBase "GETINFO version" (okWire "250 OK\r\n") =
       (.thrown (jsErr "Not connected to Tor control port"), [])) ∧
    App.connect stConn5 none = (.ok (), stConn5) :=
  ⟨(connect_failure_leaves_disconnected stBase (jsErr "refused")
      "GETINFO version" (okWire "250 OK\r\n") 5 none).1 rfl,
   (connect_failure_leaves_disconnected stConn5 (jsErr "refused")
      "GETINFO version" (okWire "250 OK\r\n") 5 none).2 rfl⟩

/-- Claim C6: `authenticate` sends an `AUTHENTICATE` command with the
password in double quotes, succeeds if and only if the reply line starts
with `250`, and for every reply not starting with `250` raises an
authentication-failed error whose text contains the trimmed reply text. -/
theorem authenticate_protocol (st : TCState) (wire : CmdWire) (c : Nat)
    (a : String) (hc : st.conn = some c) (hw : wire.writeFault = none)
    (hr : wire.readRes = .chunk a) (ha0 : a ≠ "") :
    (App.authenticate st wire).2 =
      [.write ("AUTHENTICATE \"" ++ st.password ++ "\"" ++ "\r\n"), .read] ∧
    ((App.authenticate st wire).1 = .ok () ↔ strStartsWith a "250" = true) ∧
    (strStartsWith a "250" = false →
       (App.authenticate st wire).1 =
         .thrown (jsErr ("Authentication failed: " ++ strTrim a)) ∧
       strContains ("Authentication failed: " ++ strTrim a) (strTrim a) = true) := by
  refine ⟨?_, ?_, ?_⟩
  · cases hs : strStartsWith a "250" <;>
      simp [App.authenticate, App.sendCommand, hc, hw, hr, ha0, hs]
  · cases hs : strStartsWith a "250" <;>
      simp [App.authenticate, App.sendCommand, hc, hw, hr, ha0, hs]
  · intro hs
    refine ⟨?_, strContains_suffix _ _⟩
    simp [App.authenticate, App.sendCommand, hc, hw, hr, ha0, hs]

theorem authenticate_protocol_witness :
    (App.authenticate stConn5 (okWire "250 OK\r\n")).2 =
      [.write ("AUTHENTICATE \"" ++ stConn5.password ++ "\"" ++ "\r\n"), .read] ∧
    ((App.authenticate stConn5 (okWire "250 OK\r\n")).1 = .ok () ↔
       strStartsWith "250 OK\r\n" "250" = true) ∧
    (strStartsWith "250 OK\r\n" "250" = false →
       (App.authenticate stConn5 (okWire "250 OK\r\n")).1 =
         .thrown (jsErr ("Authentication failed: " ++ strTrim "250 OK\r\n")) ∧
       strContains ("Authentication failed: " ++ strTrim "250 OK\r\n")
         (strTrim "250 OK\r\n") = true) :=
  authenticate_protocol stConn5 (okWire "250 OK\r\n") 5 "250 OK\r\n"
    rfl rfl rfl (by decide)

/-- Claim C4: for every rotation attempt in which the daemon's reply to
`AUTHENTICATE` does not start with `250`, the returned result has
`success = false`, `newIP = none`, `oldIP = none` (which satisfies the
claim's "previously probed address or none"), and a message containing
`Authentication failed`. -/
theorem changeIP_auth_rejected (st : TCState) (env : RotationEnv) (a : String)
    (hcf : env.connectFault = none)
    (haw : env.authWire = okWire a)
    (ha0 : a ≠ "") (ha : strStartsWith a "250" = false) :
    (App.changeIP st env).1 =
      .ret { success := false, oldIP := .null, newIP := .null,
             message := "Error changing IP: " ++
               errStr (jsErr ("Authentication failed: " ++ strTrim a)) } ∧
    strContains
      ("Error changing IP: " ++
        errStr (jsErr ("Authentication failed: " ++ strTrim a)))
      "Authentication failed" = true := by
  constructor
  · cases hsc : st.conn <;>
      simp [App.changeIP, App.changeIPBody, App.connect, App.authenticate,
            App.sendCommand, okWire, hcf, haw, hsc, ha0, ha]
  · have hm : ("Authentication failed: " ++ strTrim a) ≠ "" :=
      string_append_ne_empty_left _ _ (by decide)
    rw [errStr_jsErr _ hm, ← String.append_assoc, ← String.append_assoc]
    apply strContains_grow_right
    decide

theorem changeIP_auth_rejected_witness :
    (App.changeIP stBase envAuthBad).1 =
      .ret { success := false, oldIP := .null, newIP := .null,
             message := "Error changing IP: " ++
               errStr (jsErr ("Authentication failed: " ++
                 strTrim "515 Bad authentication\r\n")) } ∧
    strContains
      ("Error changing IP: " ++
        errStr (jsErr ("Authentication failed: " ++
          strTrim "515 Bad authentication\r\n")))
      "Authentication failed" = true :=
  changeIP_auth_rejected stBase envAuthBad "515 Bad authentication\r\n"
    rfl rfl (by decide) (by decide)

/-- Claim C7: for every rotation attempt in which the reply to
`SIGNAL NEWNYM` does not start with `250`, `changeIP` returns
`success = false` with a message containing the daemon's (trimmed) reply
text, and the circuit-event wait (the `SETEVENTS` subscribe and the read
loop) is never entered: the step trace ends at the NEWNYM exchange. -/
theorem changeIP_newnym_rejected (st : TCState) (env : RotationEnv) (a n : String)
    (hcf : env.connectFault = none)
    (haw : env.authWire = okWire a) (ha0 : a ≠ "")
    (ha : strStartsWith a "250" = true)
    (hnw : env.newnymWire = okWire n) (hn0 : n ≠ "")
    (hn : strStartsWith n "250" = false) :
    (App.changeIP st env).1 =
      .ret { success := false, oldIP := App.getCurrentIP st .TOR env.oldProbe,
             newIP := .null,
             message := "Failed to request new circuit: " ++ strTrim n } ∧
    (App.changeIP st env).2.2 = [.probeOld, .connectStep, .authStep, .newnymStep] ∧
    RotStep.waitStep ∉ (App.changeIP st env).2.2 ∧
    strContains ("Failed to request new circuit: " ++ strTrim n) (strTrim n) = true := by
  have htr : (App.changeIP st env).2.2 =
      [.probeOld, .connectStep, .authStep, .newnymStep] := by
    cases hsc : st.conn <;>
      simp [App.changeIP, App.changeIPBody, App.connect, App.authenticate,
            App.sendCommand, okWire, hcf, haw, hnw, hsc, ha0, ha, hn0, hn]
  refine ⟨?_, htr, ?_, strContains_suffix _ _⟩
  · cases hsc : st.conn <;>
      simp [App.changeIP, App.changeIPBody, App.connect, App.authenticate,
            App.sendCommand, okWire, hcf, haw, hnw, hsc, ha0, ha, hn0, hn]
  · rw [htr]
    decide

theorem changeIP_newnym_rejected_witness :
    (App.changeIP stBase envNewnymBad).1 =
      .ret { success := false,
             oldIP := App.getCurrentIP stBase .TOR envNewnymBad.oldProbe,
             newIP := .null,
             message := "Failed to request new circuit: " ++
               strTrim "552 Unrecognized command\r\n" } ∧
    (App.changeIP stBase envNewnymBad).2.2 =
      [.probeOld, .connectStep, .authStep, .newnymStep] ∧
    RotStep.waitStep ∉ (App.changeIP stBase envNewnymBad).2.2 ∧
    strContains ("Failed to request new circuit: " ++
        strTrim "552 Unrecognized command\r\n")
      (strTrim "552 Unrecognized command\r\n") = true :=
  changeIP_newnym_rejected stBase envNewnymBad "250 OK\r\n"
    "552 Unrecognized command\r\n" rfl rfl (by decide) (by decide)
    rfl (by decide) (by decide)

theorem classify_success_eq (o n' : IPVal) :
    (App.classify o n').success =
      (!jsStrictEq n' .null && !jsStrictEq n' o) := rfl

theorem classify_message_of_success (o n' : IPVal)
    (h : (!jsStrictEq n' .null && !jsStrictEq n' o) = true) :
    (App.classify o n').message = "IP changed successfully" := by
  simp [App.classify, h]

theorem classify_same (o n' : IPVal) (h : jsStrictEq n' o = true) :
    (App.classify o n').success = false ∧
    (App.classify o n').message = "IP change requested but same IP returned" := by
  constructor <;> simp [App.classify, h]

theorem classify_failed (o n' : IPVal) (h1 : n' = .null) (h2 : o ≠ .null) :
    (App.classify o n').success = false ∧
    (App.classify o n').message = "Failed to get new IP" := by
  subst h1
  rcases o with _ | _ | v
  · exact absurd rfl h2
  · exact ⟨rfl, rfl⟩
  · exact ⟨rfl, rfl⟩

theorem classify_undef_success (o n' : IPVal) (h1 : n' = .undef)
    (h2 : jsStrictEq n' o = false) :
    (App.classify o n').success = true ∧
    (App.classify o n').message = "IP changed successfully" := by
  subst h1
  have h3 : jsStrictEq .undef .null = false := rfl
  constructor <;> simp [App.classify, h2, h3]

/-- Any rotation whose steps 2-7 all succeed returns the classification of
the two probe values (the shape of the final block of `changeIP`). -/
theorem changeIP_completes (st : TCState) (env : RotationEnv) (a n su u : String)
    (hcf : env.connectFault = none)
    (haw : env.authWire = okWire a) (ha0 : a ≠ "")
    (ha : strStartsWith a "250" = true)
    (hnw : env.newnymWire = okWire n) (hn0 : n ≠ "")
    (hn : strStartsWith n "250" = true)
    (hsw : env.waitWire.subWire = okWire su) (hsu0 : su ≠ "")
    (hev : App.waitLoop env.waitWire.events = .ok ())
    (huw : env.waitWire.unsubWire = okWire u) (hu0 : u ≠ "")
    (hcl : env.closeClientFault = none)
    (hcr : env.createClientFault = none) :
    (App.changeIP st env).1 =
      .ret (App.classify (App.getCurrentIP st .TOR env.oldProbe)
        (probeVal env.newProbe)) := by
  cases hsc : st.conn <;> cases hpc : st.proxiedClient <;>
    simp [App.changeIP, App.changeIPBody, App.connect, App.authenticate,
          App.sendCommand, App.waitForCircuitReady, okWire,
          App.getCurrentIP, App.connectionConfig,
          hcf, haw, hnw, hsw, huw, hev, hsc, hpc, ha0, ha, hn0, hn, hsu0, hu0,
          hcl, hcr]

/-- Claim C2 (counterexample): two completed rotations refute the claimed
classification.  With the old probe reporting `1.2.3.4` and the new
probe's JSON body lacking an `origin` field, `newIP` is `undefined`; since
`undefined !== null` in JavaScript, the code declares `success = true`
with the success message although no new address is present — refuting
`success = (newIP present AND newIP != oldIP)`.  And with both probes
failing, `null === null` selects the "same IP returned" variant, not the
"failed to get new IP" variant the claim requires when the new probe
returns no value. -/
theorem changeIP_misclassification_counterexample :
    (App.changeIP stBase envNoOrigin).1 =
      .ret { success := true, oldIP := .str "1.2.3.4", newIP := .undef,
             message := "IP changed successfully" } ∧
    (App.changeIP stBase envBothNull).1 =
      .ret { success := false, oldIP := .null, newIP := .null,
             message := "IP change requested but same IP returned" } ∧
    "IP change requested but same IP returned" ≠ "Failed to get new IP" :=
  ⟨by decide, by decide, by decide⟩

/-- Claim C2 (amended): for every completed rotation attempt that reaches
the final classification step, the result follows JavaScript strict
equality on the two probe values (a probe fault yields `null`, a JSON
body without `origin` yields `undefined`): `success = (newIP !== null AND
newIP !== oldIP)` — in particular an `undefined` new value that differs
from the old one yields `success = true` and the success message although
no new address is present; when success holds the message is the success
variant; when `newIP === oldIP` (including `null === null` and
`undefined === undefined`) the message is the "same IP returned" variant
with `success = false`; and the "failed to get new IP" variant is
produced exactly when the new probe value is `null` while the old one is
not `null`. -/
theorem changeIP_classification (st : TCState) (env : RotationEnv)
    (a n su u : String)
    (hcf : env.connectFault = none)
    (haw : env.authWire = okWire a) (ha0 : a ≠ "")
    (ha : strStartsWith a "250" = true)
    (hnw : env.newnymWire = okWire n) (hn0 : n ≠ "")
    (hn : strStartsWith n "250" = true)
    (hsw : env.waitWire.subWire = okWire su) (hsu0 : su ≠ "")
    (hev : App.waitLoop env.waitWire.events = .ok ())
    (huw : env.waitWire.unsubWire = okWire u) (hu0 : u ≠ "")
    (hcl : env.closeClientFault = none)
    (hcr : env.createClientFault = none) :
    (App.changeIP st env).1 =
      .ret (App.classify (App.getCurrentIP st .TOR env.oldProbe)
        (probeVal env.newProbe)) ∧
    (App.classify (App.getCurrentIP st .TOR env.oldProbe)
        (probeVal env.newProbe)).success =
      (!jsStrictEq (probeVal env.newProbe) .null &&
       !jsStrictEq (probeVal env.newProbe)
         (App.getCurrentIP st .TOR env.oldProbe)) ∧
    ((!jsStrictEq (probeVal env.newProbe) .null &&
        !jsStrictEq (probeVal env.newProbe)
          (App.getCurrentIP st .TOR env.oldProbe)) = true →
      (App.classify (App.getCurrentIP st .TOR env.oldProbe)
          (probeVal env.newProbe)).message = "IP changed successfully") ∧
    (jsStrictEq (probeVal env.newProbe)
        (App.getCurrentIP st .TOR env.oldProbe) = true →
      (App.classify (App.getCurrentIP st .TOR env.oldProbe)
          (probeVal env.newProbe)).success = false ∧
      (App.classify (App.getCurrentIP st .TOR env.oldProbe)
          (probeVal env.newProbe)).message =
        "IP change requested but same IP returned") ∧
    (probeVal env.newProbe = .null →
       App.getCurrentIP st .TOR env.oldProbe ≠ .null →
      (App.classify (App.getCurrentIP st .TOR env.oldProbe)
          (probeVal env.newProbe)).success = false ∧
      (App.classify (App.getCurrentIP st .TOR env.oldProbe)
          (probeVal env.newProbe)).message = "Failed to get new IP") ∧
    (probeVal env.newProbe = .undef →
       jsStrictEq (probeVal env.newProbe)
         (App.getCurrentIP st .TOR env.oldProbe) = false →
      (App.classify (App.getCurrentIP st .TOR env.oldProbe)
          (probeVal env.newProbe)).success = true ∧
      (App.classify (App.getCurrentIP st .TOR env.oldProbe)
          (probeVal env.newProbe)).message = "IP changed successfully") :=
  ⟨changeIP_completes st env a n su u hcf haw ha0 ha hnw hn0 hn hsw hsu0 hev
     huw hu0 hcl hcr,
   classify_success_eq _ _,
   fun h => classify_message_of_success _ _ h,
   fun h => classify_same _ _ h,
   fun h1 h2 => classify_failed _ _ h1 h2,
   fun h1 h2 => classify_undef_success _ _ h1 h2⟩

theorem changeIP_classification_witness :
    (App.changeIP stBase envOk).1 =
      .ret (App.classify (App.getCurrentIP stBase .TOR envOk.oldProbe)
        (probeVal envOk.newProbe)) ∧
    (App.classify (App.getCurrentIP stBase .TOR envOk.oldProbe)
        (probeVal envOk.newProbe)).success =
      (!jsStrictEq (probeVal envOk.newProbe) .null &&
       !jsStrictEq (probeVal envOk.newProbe)
         (App.getCurrentIP stBase .TOR envOk.oldProbe)) ∧
    ((!jsStrictEq (probeVal envOk.newProbe) .null &&
        !jsStrictEq (probeVal envOk.newProbe)
          (App.getCurrentIP stBase .TOR envOk.oldProbe)) = true →
      (App.classify (App.getCurrentIP stBase .TOR envOk.oldProbe)
          (probeVal envOk.newProbe)).message = "IP changed successfully") ∧
    (jsStrictEq (probeVal envOk.newProbe)
        (App.getCurrentIP stBase .TOR envOk.oldProbe) = true →
      (App.classify (App.getCurrentIP stBase .TOR envOk.oldProbe)
          (probeVal envOk.newProbe)).success = false ∧
      (App.classify (App.getCurrentIP stBase .TOR envOk.oldProbe)
          (probeVal envOk.newProbe)).message =
        "IP change requested but same IP returned") ∧
    (probeVal envOk.newProbe = .null →
       App.getCurrentIP stBase .TOR envOk.oldProbe ≠ .null →
      (App.classify (App.getCurrentIP stBase .TOR envOk.oldProbe)
          (probeVal envOk.newProbe)).success = false ∧
      (App.classify (App.getCurrentIP stBase .TOR envOk.oldProbe)
          (probeVal envOk.newProbe)).message = "Failed to get new IP") ∧
    (probeVal envOk.newProbe = .undef →
       jsStrictEq (probeVal envOk.newProbe)
         (App.getCurrentIP stBase .TOR envOk.oldProbe) = false →
      (App.classify (App.getCurrentIP stBase .TOR envOk.oldProbe)
          (probeVal envOk.newProbe)).success = true ∧
      (App.classify (App.getCurrentIP stBase .TOR envOk.oldProbe)
          (probeVal envOk.newProbe)).message = "IP changed successfully") :=
  changeIP_classification stBase envOk "250 OK\r\n" "250 OK\r\n" "250 OK\r\n"
    "250 OK\r\n" rfl rfl (by decide) (by decide) rfl (by decide) (by decide)
    rfl (by decide) (by decide) rfl (by decide) rfl rfl

/-- Claim C5 (counterexample): in an otherwise fully successful rotation
with differing probe addresses, a fault thrown while disposing the
previous proxied transport is not swallowed: the identical environment
yields a successful result when disposal succeeds, but a `success = false`
result carrying the disposal error when disposal throws — the disposal
error changes the outcome of the rotation. -/
theorem closeFault_changes_outcome :
    (App.changeIP stBase envOk).1 =
      .ret { success := true, oldIP := .str "1.2.3.4", newIP := .str "5.6.7.8",
             message := "IP changed successfully" } ∧
    (App.changeIP stBase envCloseBoom).1 =
      .ret { success := false, oldIP := .null, newIP := .null,
             message := "Error changing IP: Error: boom" } :=
  ⟨by decide, by decide⟩

/-- Claim C5 (amended): during the transport replacement after the
circuit-built event, the previous proxied transport is disposed and a
newly constructed one installed; an error raised by the disposal is not
propagated to the caller, but neither is it merely logged: it is caught by
`changeIP`'s catch branch and converted into a `success = false` result,
changing the outcome of the rotation. -/
theorem replace_transport_disposal (st : TCState) (env : RotationEnv)
    (hh : Nat) (e : JsError) (a n su u : String)
    (hsc : st.conn = none) (hpc : st.proxiedClient = some hh)
    (hcf : env.connectFault = none)
    (haw : env.authWire = okWire a) (ha0 : a ≠ "")
    (ha : strStartsWith a "250" = true)
    (hnw : env.newnymWire = okWire n) (hn0 : n ≠ "")
    (hn : strStartsWith n "250" = true)
    (hsw : env.waitWire.subWire = okWire su) (hsu0 : su ≠ "")
    (hev : App.waitLoop env.waitWire.events = .ok ())
    (huw : env.waitWire.unsubWire = okWire u) (hu0 : u ≠ "")
    (hcr : env.createClientFault = none) :
    (env.closeClientFault = none →
       (App.changeIP st env).2.1.closedClients = hh :: st.closedClients ∧
       (App.changeIP st env).2.1.proxiedClient = some (st.nextHandle + 1)) ∧
    (App.changeIP st { env with closeClientFault := some e }).1 =
      .ret { success := false, oldIP := .null, newIP := .null,
             message := "Error changing IP: " ++ errStr e } := by
  constructor
  · intro hcl
    constructor <;>
      simp [App.changeIP, App.changeIPBody, App.connect, App.authenticate,
            App.sendCommand, App.waitForCircuitReady, App.disconnect, okWire,
            hcf, haw, hnw, hsw, huw, hev, hsc, hpc, ha0, ha, hn0, hn, hsu0,
            hu0, hcl, hcr]
  · simp [App.changeIP, App.changeIPBody, App.connect, App.authenticate,
          App.sendCommand, App.waitForCircuitReady, App.disconnect, okWire,
          hcf, haw, hnw, hsw, huw, hev, hsc, hpc, ha0, ha, hn0, hn, hsu0,
          hu0, hcr]

theorem replace_transport_disposal_witness :
    (envOk.closeClientFault = none →
       (App.changeIP stBase envOk).2.1.closedClients = 0 :: stBase.closedClients ∧
       (App.changeIP stBase envOk).2.1.proxiedClient =
         some (stBase.nextHandle + 1)) ∧
    (App.changeIP stBase { envOk with closeClientFault := some (jsErr "boom") }).1 =
      .ret { success := false, oldIP := .null, newIP := .null,
             message := "Error changing IP: " ++ errStr (jsErr "boom") } :=
  replace_transport_disposal stBase envOk 0 (jsErr "boom") "250 OK\r\n"
    "250 OK\r\n" "250 OK\r\n" "250 OK\r\n" rfl rfl rfl rfl (by decide)
    (by decide) rfl (by decide) (by decide) rfl (by decide) (by decide) rfl
    (by decide) rfl
